import Mathlib

/-!
Verification of the device-simulation service (FastAPI + Redis).

Shallow embedding of the core from the source:
  - utils/data_models.py : Device, CommandPayload (pydantic models)
  - utils/redis_helper.py : get_device_data_from_redis
  - app.py : list_all_devices, get_specific_device, send_device_command,
    health_check, get_redis_connection

The Redis store is modelled as an association list of hashes (device
records) and an association list of lists (per-device command logs).
Python exceptions become Except values: a raised pydantic ValidationError
is Except.error; the helper returning None is Except.ok none.
-/

namespace DeviceSim

/-- JSON-like values, as carried by a request body (Dict of str to Any)
and by serialized command entries. -/
inductive JVal where
  | str (s : String)
  | num (n : Int)
  | bool (b : Bool)
  | null
  | obj (fields : List (String × JVal))
  | arr (elems : List JVal)
deriving Repr

/-- Validated domain object, from utils/data_models.py class Device
(DeviceBase plus id and online). The field named type in the source is
type_ here because Lean reserves the word. -/
structure Device where
  id : String
  name : String
  type_ : String
  status : String
  online : Bool
deriving Repr, DecidableEq

/-- Parsed command body, from utils/data_models.py class CommandPayload:
action is a required string, parameters an optional mapping defaulting
to the empty dict. -/
structure CommandPayload where
  action : String
  parameters : List (String × JVal)
deriving Repr

/-- First-match lookup in an association list, modelling Python dict
access (dict keys are unique, so first match is the only match). -/
def lookupField (raw : List (String × α)) (k : String) : Option α :=
  (raw.find? (fun p => p.1 == k)).map Prod.snd

/-- Python str.lower on the character list (code-point wise, as python
lowercases each character). -/
def strToLower (s : String) : String := String.mk (s.data.map Char.toLower)

/-- Python str.startswith, on the character lists. -/
def strStarts (s p : String) : Bool := p.data.isPrefixOf s.data

/-- Python str.endswith, on the character lists. -/
def strEnds (s p : String) : Bool := p.data.isSuffixOf s.data

/-- Python slicing from index n, on the character list. -/
def strDrop (s : String) (n : Nat) : String := String.mk (s.data.drop n)

/-- Lexicographic comparison of character lists, the order python uses
to compare and sort strings (by code point). -/
def charListLt : List Char → List Char → Bool
  | [], [] => false
  | [], _ :: _ => true
  | _ :: _, [] => false
  | a :: as, b :: bs =>
      if a < b then true else if b < a then false else charListLt as bs

/-- Python string strict comparison, by code point. -/
def strLt (a b : String) : Bool := charListLt a.data b.data

/-- The Redis store: device hashes (string fields) keyed by the hash key,
and command-log lists keyed by the list key. An absent key is simply not
in the association list; HGETALL of an absent key yields the empty map,
LRANGE of an absent key yields the empty list, exactly as Redis does. -/
structure Store where
  hashes : List (String × List (String × String))
  lists : List (String × List JVal)
deriving Repr

/-- HGETALL: the field map stored at a hash key, empty when absent. -/
def Store.hgetall (s : Store) (key : String) : List (String × String) :=
  ((s.hashes.find? (fun p => p.1 == key)).map Prod.snd).getD []

/-- The full contents of the list stored at a list key (LRANGE 0 -1),
empty when absent. -/
def Store.lrangeAll (s : Store) (key : String) : List JVal :=
  ((s.lists.find? (fun p => p.1 == key)).map Prod.snd).getD []

/-- Replace (or create) the list stored at a key. -/
def setListKey (l : List (String × List JVal)) (key : String)
    (v : List JVal) : List (String × List JVal) :=
  match l with
  | [] => [(key, v)]
  | (k, xs) :: rest =>
      if k == key then (key, v) :: rest else (k, xs) :: setListKey rest key v

/-- The atomic LPUSH + LTRIM 0 99 unit from send_device_command: prepend
the entry, keep the first 100 elements. Executed inside a MULTI/EXEC
pipeline in the source, so it is a single step of the store. -/
def appendCommand (entry : JVal) (log : List JVal) : List JVal :=
  List.take 100 (entry :: log)

/-- Apply the atomic append-and-trim to the list stored at a key. -/
def Store.lpushTrim (s : Store) (key : String) (entry : JVal) : Store :=
  { s with lists := setListKey s.lists key (appendCommand entry (s.lrangeAll key)) }

/-- Key of the device record hash, f-string device:deviceId. -/
def devKey (deviceId : String) : String := "device:" ++ deviceId

/-- Key of the per-device command log, f-string device:deviceId:commands. -/
def cmdKey (deviceId : String) : String := "device:" ++ deviceId ++ ":commands"

/-- Decoding and validation of one raw hash into a Device, from
get_device_data_from_redis (utils/redis_helper.py) plus the pydantic
validation of Device(**raw_data):
  - empty raw map: the helper returns None (Except.ok none);
  - online is derived from the online field, default the string false,
    lower-cased and compared to the string true, before validation;
  - id is injected from the device id;
  - pydantic requires name and type to be present strings; status
    defaults to active when absent; extra fields are ignored
    (pydantic default extra behaviour); a missing required field raises
    ValidationError, modelled as Except.error. -/
def decodeDevice (deviceId : String) (raw : List (String × String)) :
    Except String (Option Device) :=
  if raw.isEmpty then Except.ok none
  else
    let online := strToLower ((lookupField raw "online").getD "false") == "true"
    match lookupField raw "name", lookupField raw "type" with
    | some n, some t =>
        Except.ok (some ⟨deviceId, n, t, (lookupField raw "status").getD "active", online⟩)
    | none, _ => Except.error "field required: name"
    | some _, none => Except.error "field required: type"

/-- get_device_data_from_redis: fetch the hash and decode it. The conn
flag models store connectivity: when false, HGETALL raises
redis ConnectionError, which the helper catches and turns into a
returned None (Except.ok none); a ValidationError is re-raised
(Except.error). -/
def get_device_data_from_redis (s : Store) (conn : Bool) (deviceId : String) :
    Except String (Option Device) :=
  if conn then decodeDevice deviceId (s.hgetall (devKey deviceId))
  else Except.ok none

/-- HTTP outcomes of the handlers, keeping only what the contracts
mention: the status class and the success payload. -/
inductive Response where
  | okDevice (d : Device)
  | okList (ds : List Device)
  | okReceipt (deviceId : String) (action : String) (timestamp : String)
  | okHealth (applicationStatus : String) (redisStatus : String)
  | badRequest
  | notFound
  | serverError
  | serviceUnavailable
deriving Repr, DecidableEq

/-- Pydantic validation of CommandPayload(**command): action must be
present and a string (an int or null is rejected, pydantic v2 does not
coerce); parameters, when present, must be a mapping, else defaults to
the empty dict; extra top-level keys are ignored (pydantic default
extra behaviour). -/
def parseCommandPayload (body : List (String × JVal)) :
    Except String CommandPayload :=
  match lookupField body "action" with
  | some (JVal.str a) =>
      match lookupField body "parameters" with
      | none => Except.ok ⟨a, []⟩
      | some (JVal.obj ps) => Except.ok ⟨a, ps⟩
      | some _ => Except.error "parameters: not a valid dict"
  | some _ => Except.error "action: not a valid string"
  | none => Except.error "action: field required"

/-- GET /devices/id (get_specific_device in app.py): fetch via the
helper; None becomes 404; a re-raised ValidationError falls to the
generic except Exception branch and becomes 500. The store is returned
unchanged (the handler only reads). -/
def get_specific_device (s : Store) (conn : Bool) (deviceId : String) :
    Response × Store :=
  match get_device_data_from_redis s conn deviceId with
  | Except.ok none => (Response.notFound, s)
  | Except.ok (some d) => (Response.okDevice d, s)
  | Except.error _ => (Response.serverError, s)

/-- Insertion step of a string sort, for the sorted(...) call of
list_all_devices. -/
def insertSorted (x : String) : List String → List String
  | [] => [x]
  | y :: ys => if strLt y x then y :: insertSorted x ys else x :: y :: ys

/-- sorted(list(set(ids))): deduplicate, then insertion-sort. -/
def sortedUnique (ids : List String) : List String :=
  (ids.foldr (fun x r => if r.contains x then r else x :: r) []).foldr insertSorted []

/-- All keys present in the store (hash keys and list keys), as SCAN
enumerates the key space. -/
def Store.allKeys (s : Store) : List String :=
  s.hashes.map Prod.fst ++ s.lists.map Prod.fst

/-- The ids gathered by the SCAN loop of list_all_devices: every key
matching device:* that does not end in :commands, with the part after
the first colon as the id (key.split with maxsplit 1 on a key starting
with device: keeps everything after the seventh character), then
sorted(list(set(ids))). -/
def deviceIds (s : Store) : List String :=
  sortedUnique (((s.allKeys.filter (fun k => strStarts k "device:")).filter
    (fun k => !(strEnds k ":commands"))).map (fun k => strDrop k 7))

/-- The per-id fetch loop of list_all_devices: get_device_data_from_redis
for each id; a None result is skipped (the if device_data guard); a
raised ValidationError aborts the loop (Except.error). -/
def collectDevices (s : Store) : List String → Except String (List Device)
  | [] => Except.ok []
  | id :: rest =>
      match decodeDevice id (s.hgetall (devKey id)) with
      | Except.error e => Except.error e
      | Except.ok none => collectDevices s rest
      | Except.ok (some d) =>
          match collectDevices s rest with
          | Except.error e => Except.error e
          | Except.ok ds => Except.ok (d :: ds)

/-- GET /devices (list_all_devices in app.py): scan ids, fetch each,
skip None results; a RedisError during the scan becomes 503; a raised
ValidationError is caught by except Exception and becomes 500. The
store is returned unchanged (the handler only reads). -/
def list_all_devices (s : Store) (conn : Bool) : Response × Store :=
  if conn then
    match collectDevices s (deviceIds s) with
    | Except.ok ds => (Response.okList ds, s)
    | Except.error _ => (Response.serverError, s)
  else (Response.serviceUnavailable, s)

/-- The serialized command entry built by send_device_command:
json.dumps of the dict with exactly the keys action, parameters and
timestamp. -/
def commandToLog (cmd : CommandPayload) (now : String) : JVal :=
  JVal.obj [("action", JVal.str cmd.action),
            ("parameters", JVal.obj cmd.parameters),
            ("timestamp", JVal.str now)]

/-- POST /devices/id/command (send_device_command in app.py): parse the
body (400 on pydantic failure); fetch the device (None gives 404,
offline gives 400, ValidationError gives 500); otherwise run the atomic
LPUSH + LTRIM pipeline and answer with the receipt. -/
def send_device_command (s : Store) (conn : Bool) (deviceId : String)
    (body : List (String × JVal)) (now : String) : Response × Store :=
  match parseCommandPayload body with
  | Except.error _ => (Response.badRequest, s)
  | Except.ok cmd =>
      match get_device_data_from_redis s conn deviceId with
      | Except.error _ => (Response.serverError, s)
      | Except.ok none => (Response.notFound, s)
      | Except.ok (some d) =>
          if !d.online then (Response.badRequest, s)
          else
            (Response.okReceipt deviceId cmd.action now,
             s.lpushTrim (cmdKey deviceId) (commandToLog cmd now))

/-- The state of the shared Redis connection pool as seen by the health
path: not yet initialized, initialized with the store answering PING,
or initialized with PING failing. -/
inductive PoolState where
  | uninitialized
  | pingOk
  | pingFails
deriving Repr, DecidableEq

/-- get_redis_connection (app.py): the FastAPI dependency raises
HTTPException 503 when the pool is None, otherwise yields a client
borrowed from the pool. -/
def get_redis_connection (p : PoolState) : Except Response Unit :=
  match p with
  | PoolState.uninitialized => Except.error Response.serviceUnavailable
  | _ => Except.ok ()

/-- GET /health (health_check in app.py): runs behind the
get_redis_connection dependency; when a client is obtained, PING
decides healthy versus unhealthy inside a 200 body; when the dependency
raises, its HTTPException is the response. -/
def health_check (p : PoolState) : Response :=
  match get_redis_connection p with
  | Except.error resp => resp
  | Except.ok _ =>
      match p with
      | PoolState.pingOk => Response.okHealth "healthy" "healthy"
      | _ => Response.okHealth "healthy" "unhealthy"

/-- The full command log of one device, as LRANGE 0 -1 of its list key
would return it. -/
def cmdList (s : Store) (deviceId : String) : List JVal :=
  s.lrangeAll (cmdKey deviceId)

/-- A sequence of POST command requests against one device, each given
by its body and the server timestamp taken at request acceptance,
executed left to right against the store. -/
def runPosts (deviceId : String)
    (posts : List (List (String × JVal) × String)) (s : Store) : Store :=
  posts.foldl (fun st p => (send_device_command st true deviceId p.1 p.2).2) s

/-- Whether a decode outcome is a raised ValidationError. -/
def isErr {α : Type} : Except String α → Bool
  | Except.error _ => true
  | Except.ok _ => false

/-- The device a given id contributes to the listing: the decoded value
when decoding does not raise, none otherwise. -/
def decodedOf (s : Store) (deviceId : String) : Option Device :=
  match decodeDevice deviceId (s.hgetall (devKey deviceId)) with
  | Except.ok o => o
  | Except.error _ => none

/-- The devices a fully decodable store contributes to GET /devices. -/
def decodedDevices (s : Store) : List Device :=
  (deviceIds s).filterMap (decodedOf s)

/-- Store holding one valid online device d1 and no command logs. -/
def storeD1 : Store :=
  ⟨[("device:d1", [("name", "Lamp"), ("type", "light"),
                   ("status", "active"), ("online", "true")])], []⟩

/-- The Device value stored in storeD1. -/
def deviceD1 : Device := ⟨"d1", "Lamp", "light", "active", true⟩

/-- Store holding one valid offline device d2. -/
def storeOffline : Store :=
  ⟨[("device:d2", [("name", "Heater"), ("type", "thermostat"),
                   ("status", "inactive"), ("online", "false")])], []⟩

/-- Store mixing one decodable device with one whose record is missing
the required name field, plus a command-log key that the scan loop must
exclude. -/
def storeMixed : Store :=
  ⟨[("device:good", [("name", "Lamp"), ("type", "light"), ("online", "true")]),
    ("device:bad", [("type", "light")])],
   [("device:good:commands", [JVal.str "old"])]⟩

/-- The empty store. -/
def storeEmpty : Store := ⟨[], []⟩

/-! ### Helper lemmas -/

/-- Decoding the empty raw map returns None before any validation. -/
theorem decode_nil (deviceId : String) : decodeDevice deviceId [] = Except.ok none := rfl

/-- After setting a list key, lookup of that key finds the new value. -/
theorem find?_setListKey (l : List (String × List JVal)) (key : String)
    (v : List JVal) :
    (setListKey l key v).find? (fun p => p.1 == key) = some (key, v) := by
  induction l with
  | nil => simp [setListKey, List.find?]
  | cons p rest ih =>
      obtain ⟨k, xs⟩ := p
      cases h : (k == key) with
      | true => simp [setListKey, h, List.find?]
      | false => simp [setListKey, h, List.find?, ih]

/-- LRANGE after the atomic append sees exactly the appended list. -/
theorem lrangeAll_lpushTrim (s : Store) (key : String) (e : JVal) :
    (s.lpushTrim key e).lrangeAll key = appendCommand e (s.lrangeAll key) := by
  simp [Store.lpushTrim, Store.lrangeAll, find?_setListKey]

/-- The atomic append never touches the device hashes. -/
theorem lpushTrim_hashes (s : Store) (key : String) (e : JVal) :
    (s.lpushTrim key e).hashes = s.hashes := rfl

/-- The trimmed list always has at most 100 entries. -/
theorem length_appendCommand (e : JVal) (l : List JVal) :
    (appendCommand e l).length ≤ 100 := by
  simp [appendCommand, List.length_take]

/-- The appended entry sits at index 0 of the trimmed list. -/
theorem head?_appendCommand (e : JVal) (l : List JVal) :
    (appendCommand e l).head? = some e := by
  unfold appendCommand
  rw [show (100 : Nat) = 99 + 1 from rfl, List.take_succ_cons]
  rfl

/-- Every branch of send_device_command either leaves the store alone or
performs exactly the atomic append of the parsed command entry. -/
theorem send_store_cases (s : Store) (conn : Bool) (deviceId : String)
    (body : List (String × JVal)) (now : String) :
    (send_device_command s conn deviceId body now).2 = s ∨
    ∃ cmd, parseCommandPayload body = Except.ok cmd ∧
      (send_device_command s conn deviceId body now).2 =
        s.lpushTrim (cmdKey deviceId) (commandToLog cmd now) := by
  unfold send_device_command
  cases hp : parseCommandPayload body with
  | error e => left; rfl
  | ok cmd =>
      cases hd : get_device_data_from_redis s conn deviceId with
      | error e => left; rfl
      | ok o =>
          cases o with
          | none => left; rfl
          | some d =>
              cases hon : d.online with
              | false => left; simp [hon]
              | true => right; exact ⟨cmd, rfl, by simp [hon]⟩

/-- send_device_command never modifies the device hashes. -/
theorem send_hashes (s : Store) (conn : Bool) (deviceId : String)
    (body : List (String × JVal)) (now : String) :
    (send_device_command s conn deviceId body now).2.hashes = s.hashes := by
  rcases send_store_cases s conn deviceId body now with h | ⟨cmd, _, h⟩ <;>
    rw [h]
  rfl

/-- One POST preserves the 100-entry bound of the command log. -/
theorem cmdList_send_le (s : Store) (conn : Bool) (deviceId : String)
    (body : List (String × JVal)) (now : String)
    (h : (cmdList s deviceId).length ≤ 100) :
    (cmdList ((send_device_command s conn deviceId body now).2) deviceId).length ≤ 100 := by
  rcases send_store_cases s conn deviceId body now with hs | ⟨cmd, _, hs⟩
  · rw [hs]; exact h
  · rw [hs]; unfold cmdList; rw [lrangeAll_lpushTrim]; exact length_appendCommand _ _

/-- A whole sequence of POSTs preserves the 100-entry bound. -/
theorem runPosts_le (deviceId : String)
    (posts : List (List (String × JVal) × String)) :
    ∀ s : Store, (cmdList s deviceId).length ≤ 100 →
      (cmdList (runPosts deviceId posts s) deviceId).length ≤ 100 := by
  induction posts with
  | nil => intro s h; exact h
  | cons p ps ih =>
      intro s h
      exact ih _ (cmdList_send_le s true deviceId p.1 p.2 h)

/-- A sequence of POSTs never modifies the device hashes. -/
theorem runPosts_hashes (deviceId : String)
    (posts : List (List (String × JVal) × String)) :
    ∀ s : Store, (runPosts deviceId posts s).hashes = s.hashes := by
  induction posts with
  | nil => intro s; rfl
  | cons p ps ih =>
      intro s
      exact (ih _).trans (send_hashes s true deviceId p.1 p.2)

/-- HGETALL only reads the hashes component. -/
theorem hgetall_congr {s₁ s₂ : Store} (h : s₁.hashes = s₂.hashes)
    (key : String) : s₁.hgetall key = s₂.hgetall key := by
  unfold Store.hgetall
  rw [h]

/-- The successful branch of send_device_command: body parses, device
decodes and is online; the response is the receipt and the store change
is the atomic append. -/
theorem send_success (s : Store) (deviceId : String)
    (body : List (String × JVal)) (now : String) (cmd : CommandPayload)
    (d : Device) (hp : parseCommandPayload body = Except.ok cmd)
    (hd : decodeDevice deviceId (s.hgetall (devKey deviceId)) = Except.ok (some d))
    (hon : d.online = true) :
    send_device_command s true deviceId body now =
      (Response.okReceipt deviceId cmd.action now,
       s.lpushTrim (cmdKey deviceId) (commandToLog cmd now)) := by
  unfold send_device_command get_device_data_from_redis
  simp [hp, hd, hon]

/-- When no scanned record raises a ValidationError, the fetch loop of
list_all_devices returns exactly the decodable devices, skipping the
None results. -/
theorem collect_all_ok (s : Store) (ids : List String)
    (h : ∀ id ∈ ids, isErr (decodeDevice id (s.hgetall (devKey id))) = false) :
    collectDevices s ids = Except.ok (ids.filterMap (decodedOf s)) := by
  induction ids with
  | nil => simp [collectDevices]
  | cons id rest ih =>
      have h1 := h id (List.mem_cons_self id rest)
      have h2 : ∀ i ∈ rest, isErr (decodeDevice i (s.hgetall (devKey i))) = false :=
        fun i hi => h i (List.mem_cons_of_mem _ hi)
      cases hd : decodeDevice id (s.hgetall (devKey id)) with
      | error e => rw [hd] at h1; simp [isErr] at h1
      | ok o =>
          cases o with
          | none => simp [collectDevices, hd, ih h2, decodedOf]
          | some d => simp [collectDevices, hd, ih h2, decodedOf]

/-- When some scanned record raises a ValidationError, the fetch loop of
list_all_devices aborts with that error. -/
theorem collect_has_err (s : Store) (ids : List String)
    (h : ∃ id ∈ ids, isErr (decodeDevice id (s.hgetall (devKey id))) = true) :
    ∃ e, collectDevices s ids = Except.error e := by
  induction ids with
  | nil => simp at h
  | cons id rest ih =>
      rcases h with ⟨i, hi, herr⟩
      rcases List.mem_cons.mp hi with rfl | hmem
      · cases hd : decodeDevice i (s.hgetall (devKey i)) with
        | error e => exact ⟨e, by simp [collectDevices, hd]⟩
        | ok o => rw [hd] at herr; simp [isErr] at herr
      · rcases ih ⟨i, hmem, herr⟩ with ⟨e, he⟩
        cases hd : decodeDevice id (s.hgetall (devKey id)) with
        | error e₀ => exact ⟨e₀, by simp [collectDevices, hd]⟩
        | ok o =>
            cases o with
            | none => exact ⟨e, by simp [collectDevices, hd, he]⟩
            | some d => exact ⟨e, by simp [collectDevices, hd, he]⟩

/-! ### Claim theorems -/

/-- Claim C1: for every device id and every sequence of POST command
operations, the atomic prepend-and-trim unit keeps the command list at
most 100 entries long, and the most recently appended entry is at
index 0 of the list. -/
theorem commandLog_bounded_and_newest_first (s : Store) (deviceId : String)
    (posts : List (List (String × JVal) × String))
    (hinit : (cmdList s deviceId).length ≤ 100) :
    (cmdList (runPosts deviceId posts s) deviceId).length ≤ 100 ∧
    (∀ (body : List (String × JVal)) (now : String) (cmd : CommandPayload)
       (d : Device),
       parseCommandPayload body = Except.ok cmd →
       decodeDevice deviceId (s.hgetall (devKey deviceId)) = Except.ok (some d) →
       d.online = true →
       (cmdList (runPosts deviceId (posts ++ [(body, now)]) s) deviceId).head? =
         some (commandToLog cmd now)) := by
  refine ⟨runPosts_le deviceId posts s hinit, ?_⟩
  intro body now cmd d hp hd hon
  have hfold : runPosts deviceId (posts ++ [(body, now)]) s =
      (send_device_command (runPosts deviceId posts s) true deviceId body now).2 := by
    unfold runPosts
    rw [List.foldl_append]
    rfl
  have hh : (runPosts deviceId posts s).hgetall (devKey deviceId) =
      s.hgetall (devKey deviceId) :=
    hgetall_congr (runPosts_hashes deviceId posts s) _
  have hsend := send_success (runPosts deviceId posts s) deviceId body now cmd d
    hp (by rw [hh]; exact hd) hon
  rw [hfold, hsend]
  dsimp only
  unfold cmdList
  rw [lrangeAll_lpushTrim]
  exact head?_appendCommand _ _

/-- Witness for C1 at a concrete store and one concrete POST. -/
theorem commandLog_bounded_and_newest_first_witness :
    (cmdList (runPosts "d1" [] storeD1) "d1").length ≤ 100 ∧
    (cmdList (runPosts "d1" ([] ++ [([("action", JVal.str "toggle")], "T")]) storeD1) "d1").head? =
      some (commandToLog ⟨"toggle", []⟩ "T") := by
  have h := commandLog_bounded_and_newest_first storeD1 "d1" [] (by decide)
  exact ⟨h.1, h.2 [("action", JVal.str "toggle")] "T" ⟨"toggle", []⟩ deviceD1 rfl rfl rfl⟩

/-- Counterexample to claim C2: storeD1 holds a perfectly valid device
d1 (first conjunct), yet when connectivity fails the single-device
fetch answers exactly the not-found response (second conjunct), the
very response an absent device gets (third conjunct): the connectivity
failure is reported to the caller as not-found. -/
theorem connFailure_reported_as_notFound_cex :
    (get_specific_device storeD1 true "d1").1 = Response.okDevice deviceD1 ∧
    (get_specific_device storeD1 false "d1").1 = Response.notFound ∧
    (get_specific_device storeEmpty true "d1").1 = Response.notFound :=
  ⟨rfl, rfl, rfl⟩

/-- Claim C2 amended: on store connectivity failure the helper catches
the ConnectionError and returns None, so GET of a single device reports
404 not-found, conflating connectivity failure with record-absent
instead of signaling it distinctly. -/
theorem connFailure_maps_to_notFound (s : Store) (deviceId : String) :
    (get_specific_device s false deviceId).1 = Response.notFound := rfl

/-- Counterexample to claim C3: in storeMixed the record of device bad
lacks the required name field; GET /devices answers a 500 server error
instead of dropping the invalid record and returning the remaining
device good. -/
theorem invalid_record_fails_listing_cex :
    (list_all_devices storeMixed true).1 = Response.serverError ∧
    (list_all_devices storeMixed true).1 ≠
      Response.okList [⟨"good", "Lamp", "light", "active", true⟩] := by
  refine ⟨rfl, ?_⟩
  intro hcontr
  rw [show (list_all_devices storeMixed true).1 = Response.serverError from rfl] at hcontr
  exact Response.noConfusion hcontr

/-- Claim C3 amended: GET /devices skips records whose fetch returns
None (absent between scan and fetch, or per-record connection error),
but a stored record that fails validation raises, and the raised
ValidationError fails the entire listing with a 500 server error
rather than being dropped. -/
theorem listing_skips_none_raises_on_invalid (s : Store) :
    ((∀ id ∈ deviceIds s, isErr (decodeDevice id (s.hgetall (devKey id))) = false) →
       (list_all_devices s true).1 = Response.okList (decodedDevices s)) ∧
    ((∃ id ∈ deviceIds s, isErr (decodeDevice id (s.hgetall (devKey id))) = true) →
       (list_all_devices s true).1 = Response.serverError) := by
  constructor
  · intro h
    simp [list_all_devices, collect_all_ok s (deviceIds s) h, decodedDevices]
  · intro h
    rcases collect_has_err s (deviceIds s) h with ⟨e, he⟩
    simp [list_all_devices, he]

/-- Witness for the amended C3 at concrete stores: a fully decodable
store is listed in full, and a store holding one invalid record fails
the whole listing. -/
theorem listing_policy_witness :
    (list_all_devices storeD1 true).1 = Response.okList (decodedDevices storeD1) ∧
    (list_all_devices storeMixed true).1 = Response.serverError := by
  refine ⟨(listing_skips_none_raises_on_invalid storeD1).1 (by decide),
          (listing_skips_none_raises_on_invalid storeMixed).2 ?_⟩
  exact ⟨"bad", by decide, by decide⟩

/-- Counterexample to claim C4: a record with an empty name decodes to
a Device carrying the empty string, and a record missing the status
field decodes to a Device with the silently defaulted status active;
neither signals a decoding failure. -/
theorem validation_gaps_cex :
    decodeDevice "d1" [("name", ""), ("type", "light"), ("status", "active")] =
      Except.ok (some ⟨"d1", "", "light", "active", false⟩) ∧
    decodeDevice "d2" [("name", "Lamp"), ("type", "light")] =
      Except.ok (some ⟨"d2", "Lamp", "light", "active", false⟩) :=
  ⟨rfl, rfl⟩

/-- Claim C4 amended: decoding a non-empty raw record fails exactly
when the name or the type field is missing; a present name or type is
accepted verbatim, empty strings included, and a missing status is
silently defaulted to active rather than rejected. -/
theorem decode_validation_amended (deviceId : String)
    (raw : List (String × String)) (h : raw ≠ []) :
    ((∃ e, decodeDevice deviceId raw = Except.error e) ↔
       (lookupField raw "name" = none ∨ lookupField raw "type" = none)) ∧
    (∀ d, decodeDevice deviceId raw = Except.ok (some d) →
       lookupField raw "name" = some d.name ∧
       lookupField raw "type" = some d.type_ ∧
       d.status = (lookupField raw "status").getD "active") := by
  have he : raw.isEmpty = false := by
    cases raw with
    | nil => exact absurd rfl h
    | cons a l => rfl
  cases hn : lookupField raw "name" with
  | none =>
      constructor
      · simp [decodeDevice, he, hn]
      · intro d hd
        simp [decodeDevice, he, hn] at hd
  | some n =>
      cases ht : lookupField raw "type" with
      | none =>
          constructor
          · simp [decodeDevice, he, hn, ht]
          · intro d hd
            simp [decodeDevice, he, hn, ht] at hd
      | some t =>
          constructor
          · simp [decodeDevice, he, hn, ht]
          · intro d hd
            simp [decodeDevice, he, hn, ht] at hd
            cases hd
            exact ⟨rfl, rfl, rfl⟩

/-- Witness for the amended C4 at a concrete record: a record missing
type fails to decode, and a decodable record keeps its fields. -/
theorem decode_validation_amended_witness :
    ((∃ e, decodeDevice "w" [("name", "Lamp")] = Except.error e) ↔
       (lookupField [("name", "Lamp")] "name" = none ∨
        lookupField [("name", "Lamp")] "type" = none)) ∧
    (∀ d, decodeDevice "w" [("name", "Lamp")] = Except.ok (some d) →
       lookupField [("name", "Lamp")] "name" = some d.name ∧
       lookupField [("name", "Lamp")] "type" = some d.type_ ∧
       d.status = (lookupField [("name", "Lamp")] "status").getD "active") :=
  decode_validation_amended "w" [("name", "Lamp")] (by decide)

/-- Claim C5 is the spec intent the handler body also shows (its dead
branch initializes the store status to unavailable behind an Optional
connection), but the code diverges: when the pool is uninitialized the
get_redis_connection dependency raises, so GET /health answers 503
instead of a 200 body with a degraded store status; with an obtained
connection the two ping outcomes are reported inside a 200 body. -/
theorem health_uninitialized_pool_fails :
    health_check PoolState.uninitialized = Response.serviceUnavailable ∧
    health_check PoolState.pingOk = Response.okHealth "healthy" "healthy" ∧
    health_check PoolState.pingFails = Response.okHealth "healthy" "unhealthy" :=
  ⟨rfl, rfl, rfl⟩

/-- Claim C6: a device whose stored hash is absent or empty decodes to
None, the no-such-record outcome, and never to a ValidationError. -/
theorem absent_record_is_notFound (s : Store) (deviceId : String)
    (h : s.hgetall (devKey deviceId) = []) :
    get_device_data_from_redis s true deviceId = Except.ok none := by
  simp [get_device_data_from_redis, h, decode_nil]

/-- Witness for C6: fetching a device from the empty store. -/
theorem absent_record_is_notFound_witness :
    get_device_data_from_redis storeEmpty true "ghost" = Except.ok none :=
  absent_record_is_notFound storeEmpty "ghost" rfl

/-- Claim C7: the online flag of every decoded Device is true exactly
when the stored online string, lower-cased, equals the string true; an
absent online field defaults to the string false, hence decodes to an
offline device. -/
theorem online_derived_case_insensitive (deviceId : String)
    (raw : List (String × String)) (d : Device)
    (h : decodeDevice deviceId raw = Except.ok (some d)) :
    (d.online = true ↔ strToLower ((lookupField raw "online").getD "false") = "true") ∧
    (lookupField raw "online" = none → d.online = false) := by
  have he : raw.isEmpty = false := by
    cases hr : raw.isEmpty with
    | false => rfl
    | true => simp [decodeDevice, hr] at h
  cases hn : lookupField raw "name" with
  | none => simp [decodeDevice, he, hn] at h
  | some n =>
      cases ht : lookupField raw "type" with
      | none => simp [decodeDevice, he, hn, ht] at h
      | some t =>
          simp [decodeDevice, he, hn, ht] at h
          cases h
          constructor
          · simp
          · intro hno
            simp [hno]
            decide

/-- Witness for C7 at a concrete record whose online field is the
upper-case string TRUE. -/
theorem online_derived_case_insensitive_witness :
    ((deviceD1.online = true ↔
       strToLower ((lookupField [("name", "Lamp"), ("type", "light"),
         ("status", "active"), ("online", "TRUE")] "online").getD "false") = "true") ∧
     (lookupField [("name", "Lamp"), ("type", "light"),
         ("status", "active"), ("online", "TRUE")] "online" = none →
       deviceD1.online = false)) :=
  online_derived_case_insensitive "d1"
    [("name", "Lamp"), ("type", "light"), ("status", "active"), ("online", "TRUE")]
    deviceD1 rfl

/-- Claim C8: with a well-formed body, a POST command to an absent
device answers 404 and a POST command to a device that decodes with
online false answers 400; in both cases the whole store, and with it
the command list, is returned unchanged: no prepend and no trim. -/
theorem command_rejections_leave_log_unchanged (s : Store) (deviceId : String)
    (body : List (String × JVal)) (now : String) (cmd : CommandPayload)
    (hp : parseCommandPayload body = Except.ok cmd) :
    (s.hgetall (devKey deviceId) = [] →
       send_device_command s true deviceId body now = (Response.notFound, s)) ∧
    (∀ d, decodeDevice deviceId (s.hgetall (devKey deviceId)) = Except.ok (some d) →
       d.online = false →
       send_device_command s true deviceId body now = (Response.badRequest, s)) := by
  constructor
  · intro habs
    unfold send_device_command get_device_data_from_redis
    simp [hp, habs, decode_nil]
  · intro d hd hoff
    unfold send_device_command get_device_data_from_redis
    simp [hp, hd, hoff]

/-- Witness for C8: a command to a device absent from the empty store
is a 404 leaving the store alone; a command to the stored offline
device d2 is a 400 leaving the store alone. -/
theorem command_rejections_witness :
    send_device_command storeEmpty true "ghost" [("action", JVal.str "x")] "T" =
      (Response.notFound, storeEmpty) ∧
    send_device_command storeOffline true "d2" [("action", JVal.str "x")] "T" =
      (Response.badRequest, storeOffline) :=
  ⟨(command_rejections_leave_log_unchanged storeEmpty "ghost"
      [("action", JVal.str "x")] "T" ⟨"x", []⟩ rfl).1 rfl,
   (command_rejections_leave_log_unchanged storeOffline "d2"
      [("action", JVal.str "x")] "T" ⟨"x", []⟩ rfl).2
     ⟨"d2", "Heater", "thermostat", "inactive", false⟩ rfl rfl⟩

/-- Claim C9: the two read endpoints return the store exactly as it
was, for every store state, connectivity state and device id: whatever
the outcome, neither GET handler writes. -/
theorem read_endpoints_do_not_write (s : Store) (conn : Bool) (deviceId : String) :
    (list_all_devices s conn).2 = s ∧ (get_specific_device s conn deviceId).2 = s := by
  constructor
  · cases conn with
    | false => rfl
    | true =>
        unfold list_all_devices
        cases h : collectDevices s (deviceIds s) <;> simp [h]
  · unfold get_specific_device
    cases h : get_device_data_from_redis s conn deviceId with
    | error e => simp [h]
    | ok o => cases o <;> simp [h]

/-- Claim C10: a body whose action is a string parses whatever extra
top-level keys it carries, with parameters defaulting to the empty
mapping when absent; and the entry appended to the command log is
exactly the three-field object of action, parameters and the server
timestamp, so extra body keys are never persisted. -/
theorem command_body_extra_keys_ignored :
    (∀ (body : List (String × JVal)) (a : String),
       lookupField body "action" = some (JVal.str a) →
       lookupField body "parameters" = none →
       parseCommandPayload body = Except.ok ⟨a, []⟩) ∧
    (∀ (body : List (String × JVal)) (a : String) (ps : List (String × JVal)),
       lookupField body "action" = some (JVal.str a) →
       lookupField body "parameters" = some (JVal.obj ps) →
       parseCommandPayload body = Except.ok ⟨a, ps⟩) ∧
    (∀ (s : Store) (deviceId now : String) (body : List (String × JVal))
       (cmd : CommandPayload) (d : Device),
       parseCommandPayload body = Except.ok cmd →
       decodeDevice deviceId (s.hgetall (devKey deviceId)) = Except.ok (some d) →
       d.online = true →
       cmdList ((send_device_command s true deviceId body now).2) deviceId =
         appendCommand (commandToLog cmd now) (cmdList s deviceId)) := by
  refine ⟨?_, ?_, ?_⟩
  · intro body a ha hps
    unfold parseCommandPayload
    simp [ha, hps]
  · intro body a ps ha hps
    unfold parseCommandPayload
    simp [ha, hps]
  · intro s deviceId now body cmd d hp hd hon
    rw [send_success s deviceId body now cmd d hp hd hon]
    dsimp only
    unfold cmdList
    exact lrangeAll_lpushTrim s (cmdKey deviceId) (commandToLog cmd now)

/-- Witness for C10: concrete bodies with extra keys parse, and the
persisted entry is the three-field object. -/
theorem command_body_extra_keys_witness :
    parseCommandPayload [("action", JVal.str "toggle"), ("extra", JVal.num 3)] =
      Except.ok ⟨"toggle", []⟩ ∧
    parseCommandPayload [("action", JVal.str "set"),
        ("parameters", JVal.obj [("v", JVal.num 1)]), ("junk", JVal.null)] =
      Except.ok ⟨"set", [("v", JVal.num 1)]⟩ ∧
    cmdList ((send_device_command storeD1 true "d1"
        [("action", JVal.str "toggle"), ("extra", JVal.num 3)] "T").2) "d1" =
      appendCommand (commandToLog ⟨"toggle", []⟩ "T") (cmdList storeD1 "d1") :=
  ⟨command_body_extra_keys_ignored.1 _ "toggle" rfl rfl,
   command_body_extra_keys_ignored.2.1 _ "set" _ rfl rfl,
   command_body_extra_keys_ignored.2.2 storeD1 "d1" "T" _ ⟨"toggle", []⟩
     deviceD1 rfl rfl rfl⟩

end DeviceSim
